import Mathlib

/-!
Shallow embedding of the QuantaQueue queueing-theory library (TypeScript)
over exact rational arithmetic.

Conventions used throughout:
* JavaScript `number` values are modelled as `ℚ`; the mathjs expression
  kernel evaluates the interpolated expression strings exactly, so each
  expression string in the source is translated to the corresponding
  rational formula.
* `round(x, d)` of mathjs (JS `Math.round` semantics: round half toward
  positive infinity after scaling) is modelled by `roundDec`, built on
  Mathlib `round : ℚ → ℤ`, which has exactly those semantics.
* mathjs `x ^ e` and `n!` are only ever reached with integer exponents and
  nonnegative integer factorial arguments in this development; `ratPow`
  and `ratFactorial` agree with mathjs there and return a junk value `0`
  on the (never exercised) non-integer inputs, where mathjs would move to
  irrational gamma/power values that have no rational counterpart.
* a TypeScript function that can `throw` is modelled with
  `Except String`; the `try/catch` re-throw wrappers of the source become
  `wrapErr` with the corresponding message text (apostrophes of the
  original message texts are dropped).
-/

namespace QuantaQueue

/-- Rounding to `d` decimal places as performed by the mathjs
`round(x, d)` used by every public function of the library:
scale by `10^d`, round half toward positive infinity, scale back. -/
def roundDec (x : ℚ) (d : ℕ) : ℚ := (round (x * 10 ^ d) : ℚ) / 10 ^ d

/-- mathjs exponentiation `b ^ e` restricted to the integer exponents the
library actually produces; non-integer exponents are never reached in the
verified claims and are mapped to `0`. -/
def ratPow (b e : ℚ) : ℚ := if e.den = 1 then b ^ e.num else 0

/-- mathjs factorial `q !` restricted to the nonnegative integer arguments
the library actually produces; other arguments are never reached in the
verified claims and are mapped to `0`. -/
def ratFactorial (q : ℚ) : ℚ :=
  if q.den = 1 ∧ 0 ≤ q.num then (Nat.factorial q.num.toNat : ℚ) else 0

/-- The `catch (error) { throw Error(context + error) }` wrappers of the
source: prepend the context of the failing function to an error. -/
def wrapErr {α : Type} (pre : String) : Except String α → Except String α
  | .ok v => .ok v
  | .error e => .error (pre ++ e)

/-! ## Basic utilities (`src/basic/basic.ts`) -/

/-- The `type` parameter of `Percent`: a JavaScript value that is either a
boolean or a string (the source type is `boolean | "MULTIPLY" | "DIVISION"`). -/
inductive PercentType : Type
  | bool (b : Bool)
  | str (s : String)

/-- JavaScript truthiness of a `PercentType` value. -/
def PercentType.truthy : PercentType → Bool
  | .bool b => b
  | .str s => decide (s ≠ "")

/-- JavaScript `typeof type === "string"`. -/
def PercentType.isString : PercentType → Bool
  | .bool _ => false
  | .str _ => true

/-- JavaScript `type === "MULTIPLY"`. -/
def PercentType.isMultiply : PercentType → Bool
  | .bool _ => false
  | .str s => decide (s = "MULTIPLY")

/-- `Percent` of `src/basic/basic.ts`.  The source returns the string
`` `${round(res, decimals)}%` ``; the embedding returns the rounded number
that is interpolated in front of the percent sign.  The branch condition
is the source normalisation
`type = type && typeof type === "string" && type === "MULTIPLY"`. -/
def Percent (value total : ℚ) (ty : PercentType) (d : ℕ) : Except String ℚ :=
  wrapErr ("Error in convert value to percent: ") <|
  if total = 0 then .error ("The parameter total cannot be equal to zero (0).")
  else if ty.truthy && ty.isString && ty.isMultiply then
    .ok (roundDec (value * total) d)
  else
    .ok (roundDec (value / total * 100) d)

/-- `Percent` of the revised basic module (`src/unnamed/part_007`), whose
normalisation is `type = type === true || (typeof type === "string" && type === "MULTIPLY")`. -/
def PercentV2 (value total : ℚ) (ty : PercentType) (d : ℕ) : Except String ℚ :=
  wrapErr ("Error in convert value to percent: ") <|
  if total = 0 then .error ("The parameter total cannot be equal to zero (0).")
  else if (match ty with | .bool b => b | .str _ => false) || (ty.isString && ty.isMultiply) then
    .ok (roundDec (value * total) d)
  else
    .ok (roundDec (value / total * 100) d)

/-- `Convert` of `src/basic/basic.ts`: all three falsy/zero guards of the
source collapse to `= 0` tests over `ℚ`, after which the source evaluates
`(1/(sourceValue*sourceUnit))*targetUnit` and rounds. -/
def Convert (sourceValue sourceUnit targetUnit : ℚ) (d : ℕ) : Except String ℚ :=
  wrapErr ("Calculate error: ") <|
  if sourceValue = 0 then .error ("The sourceValue variable must have a nonzero numeric value.")
  else if sourceUnit = 0 then .error ("The sourceUnit variable must have a nonzero numeric value.")
  else if targetUnit = 0 then .error ("The targetUnit variable cannot be equal to zero (0).")
  else .ok (roundDec (1 / (sourceValue * sourceUnit) * targetUnit) d)

/-- Number of iterations of the `for (let i = lowerLimit; i <= upperLimit; i++)`
loop of `Summation`. -/
def summationCount (lower upper : ℚ) : ℕ :=
  if upper < lower then 0 else (⌊upper - lower⌋ + 1).toNat

/-- `Summation` of `src/basic/basic.ts`.  The expression string with its
bound variable `n` is embedded as the function `f`; the loop accumulates
`f lower, f (lower+1), ...` once per integer step and the final total is
rounded. -/
def Summation (lower upper : ℚ) (f : ℚ → ℚ) (d : ℕ) : ℚ :=
  roundDec ((Finset.range (summationCount lower upper)).sum (fun i => f (lower + i))) d

/-- The expression string `"n"`: the identity on the bound variable. -/
def nExpr : ℚ → ℚ := fun q => q

/-- `Rho` of `src/basic/basic.ts`: `lambda / (mu * serverSize)` rounded,
failing on `mu = 0` and on `serverSize <= 0`. -/
def Rho (lambda mu serverSize : ℚ) (d : ℕ) : Except String ℚ :=
  wrapErr ("System utilization factor error: ") <|
  if mu = 0 then .error ("The parameter mu cannot be equal to zero (0).")
  else if serverSize ≤ 0 then
    .error ("The parameter serverSize cannot be equal to zero (0) or minor to one (serverSize < 1).")
  else .ok (roundDec (lambda / (mu * serverSize)) d)

/-! ## M/M/1 model (`src/research/SingleServer/singleServer.ts`) -/

/-- `SSInitialProbability`: `P0 = 1 - rho` with `rho = Rho(lambda, mu, 1, 15)`. -/
def SSInitialProbability (lambda mu : ℚ) (d : ℕ) : Except String ℚ :=
  wrapErr ("Single Server Initial Probability error: ") <|
  if mu = 0 then .error ("The parameter mu cannot be equal to 0.")
  else
    match Rho lambda mu 1 15 with
    | .error e => .error e
    | .ok rho => .ok (roundDec (1 - rho) d)

/-- `SSNProbability`: `Pn = rho^n * P0`, requiring `n >= 1`. -/
def SSNProbability (lambda mu iteration : ℚ) (d : ℕ) : Except String ℚ :=
  wrapErr ("Single Server n Probability error: ") <|
  if mu = 0 then .error ("The parameter mu cannot be equal to 0.")
  else if iteration < 1 then .error ("The parameter iteration cannot be lower than 1.")
  else
    match Rho lambda mu 1 15 with
    | .error e => .error e
    | .ok rho =>
      match SSInitialProbability lambda mu 15 with
      | .error e => .error e
      | .ok po => .ok (roundDec (ratPow rho iteration * po) d)

/-- `SSSClientEx`: `Ls = rho / (1 - rho)`. -/
def SSSClientEx (lambda mu : ℚ) (d : ℕ) : Except String ℚ :=
  wrapErr ("Expected value of the number of customers in the system error: ") <|
  if mu = 0 then .error ("The parameter mu cannot be equal to 0.")
  else
    match Rho lambda mu 1 15 with
    | .error e => .error e
    | .ok rho => .ok (roundDec (rho / (1 - rho)) d)

/-- `SSQClientEx`: `Lq = rho^2 / (1 - rho)`. -/
def SSQClientEx (lambda mu : ℚ) (d : ℕ) : Except String ℚ :=
  wrapErr ("Expected value of the number of customers in the queue error: ") <|
  if mu = 0 then .error ("The parameter mu cannot be equal to 0.")
  else
    match Rho lambda mu 1 15 with
    | .error e => .error e
    | .ok rho => .ok (roundDec (rho ^ 2 / (1 - rho)) d)

/-- `SSSTimeEx`: `Ws = 1 / (mu - lambda)`. -/
def SSSTimeEx (lambda mu : ℚ) (d : ℕ) : Except String ℚ :=
  wrapErr ("Average waiting time in the system error: ") <|
  if mu = 0 then .error ("The parameter mu cannot be equal to 0.")
  else .ok (roundDec (1 / (mu - lambda)) d)

/-- `SSQTimeEx`: `Wq = rho / (mu * (1 - rho))`. -/
def SSQTimeEx (lambda mu : ℚ) (d : ℕ) : Except String ℚ :=
  wrapErr ("Average waiting time in the queue error: ") <|
  if mu = 0 then .error ("The parameter mu cannot be equal to 0.")
  else
    match Rho lambda mu 1 15 with
    | .error e => .error e
    | .ok rho => .ok (roundDec (rho / (mu * (1 - rho))) d)

/-! ## M/M/s model (`src/research/MultiServer`, file `part_004`) -/

/-- `MMSQtyServerBusy`: `(lambda/mu)^n / n!` for `n <= s`, otherwise
`(lambda/mu)^n / (s! * s^(n-s))`; requires `mu != 0`, `s >= 1`, `n >= 1`. -/
def MMSQtyServerBusy (lambda mu serverSize iteration : ℚ) (d : ℕ) : Except String ℚ :=
  wrapErr ("M/M/s Quantity of Servers Busy error: ") <|
  if mu = 0 then .error ("The parameter mu cannot be equal to zero (0).")
  else if serverSize ≤ 0 then
    .error ("The parameter serverSize cannot be equal to zero (0) or minor to one (serverSize < 1).")
  else if iteration < 1 then .error ("The parameter iteration cannot be lower than 1.")
  else if iteration ≤ serverSize then
    .ok (roundDec (ratPow (lambda / mu) iteration / ratFactorial iteration) d)
  else
    .ok (roundDec (ratPow (lambda / mu) iteration /
      (ratFactorial serverSize * ratPow serverSize (iteration - serverSize))) d)

/-- `MMSInitialProbability`:
`P0 = 1 / (Sum_{n=0}^{s-1} (lambda/mu)^n/n! + ((lambda/mu)^s/s!) * 1/(1-rho))`. -/
def MMSInitialProbability (lambda mu serverSize : ℚ) (d : ℕ) : Except String ℚ :=
  wrapErr ("M/M/s Initial Probability error: ") <|
  if mu = 0 then .error ("The parameter mu cannot be equal to zero (0).")
  else if serverSize ≤ 0 then
    .error ("The parameter serverSize cannot be equal to zero (0) or minor to one (serverSize < 1).")
  else
    let sum := Summation 0 (serverSize - 1)
      (fun n => ratPow (lambda / mu) n / ratFactorial n) 15
    match Rho lambda mu serverSize 15 with
    | .error e => .error e
    | .ok rho =>
      .ok (roundDec (1 / (sum + ratPow (lambda / mu) serverSize / ratFactorial serverSize *
        (1 / (1 - rho)))) d)

/-- `MMSNProbability`: `((lambda/mu)^s / n!) * P0` for `n <= s` (exponent `s`),
otherwise `((lambda/mu) / (s! * s^(n-s))) * P0` (first factor to the first
power); requires `mu > 0`, `s >= 1`, `n >= 0`. -/
def MMSNProbability (lambda mu serverSize iteration : ℚ) (d : ℕ) : Except String ℚ :=
  wrapErr ("M/M/s n Probability error: ") <|
  if mu ≤ 0 then .error ("The parameter mu cannot be equal to or less than zero (0).")
  else if serverSize ≤ 0 then
    .error ("The parameter serverSize cannot be equal to zero (0) or minor to one (serverSize < 1).")
  else if iteration < 0 then .error ("The parameter n cannot be lower than 0.")
  else
    match MMSInitialProbability lambda mu serverSize 15 with
    | .error e => .error e
    | .ok po =>
      if iteration ≤ serverSize then
        .ok (roundDec (ratPow (lambda / mu) serverSize / ratFactorial iteration * po) d)
      else
        .ok (roundDec ((lambda / mu) /
          (ratFactorial serverSize * ratPow serverSize (iteration - serverSize)) * po) d)

/-- The symmetric textbook state-probability formulas for the M/M/s model
(exponent `n` in both regimes), written from the spec design note; used
only to witness that the source function deliberately differs from them. -/
def MMSNProbabilityTextbook (lambda mu serverSize iteration : ℚ) (d : ℕ) : Except String ℚ :=
  match MMSInitialProbability lambda mu serverSize 15 with
  | .error e => .error e
  | .ok po =>
    if iteration ≤ serverSize then
      .ok (roundDec (ratPow (lambda / mu) iteration / ratFactorial iteration * po) d)
    else
      .ok (roundDec (ratPow (lambda / mu) iteration /
        (ratFactorial serverSize * ratPow serverSize (iteration - serverSize)) * po) d)

/-- `MMSQClientEx`: `Lq = (P0 * (lambda/mu)^s) / (s! * (1-rho)^2) * rho`. -/
def MMSQClientEx (lambda mu serverSize : ℚ) (d : ℕ) : Except String ℚ :=
  wrapErr ("Expected value of the number of customers in the queue error: ") <|
  let s := if serverSize = 0 then 1 else serverSize
  if mu ≤ 0 ∨ s ≤ 0 then
    .error ("The parameter mu or server size cannot be equal to or less than 0.")
  else
    match Rho lambda mu s 15 with
    | .error e => .error e
    | .ok rho =>
      match MMSInitialProbability lambda mu s 15 with
      | .error e => .error e
      | .ok po =>
        .ok (roundDec (po * ratPow (lambda / mu) s / (ratFactorial s * (1 - rho) ^ 2) * rho) d)

/-- `MMSSClientEx`: `Ls = Lq + lambda/mu`. -/
def MMSSClientEx (lambda mu serverSize : ℚ) (d : ℕ) : Except String ℚ :=
  wrapErr ("Expected value of the number of customers in the queue error: ") <|
  let s := if serverSize = 0 then 1 else serverSize
  if mu ≤ 0 ∨ s ≤ 0 then
    .error ("The parameter mu or server size cannot be equal to or less than 0.")
  else
    match MMSQClientEx lambda mu s 15 with
    | .error e => .error e
    | .ok lq => .ok (roundDec (lq + lambda / mu) d)

/-- `MMSQTimeEx`: `Wq = Lq / lambda`. -/
def MMSQTimeEx (lambda mu serverSize : ℚ) (d : ℕ) : Except String ℚ :=
  wrapErr ("Expected value of the number of customers in the queue error: ") <|
  let s := if serverSize = 0 then 1 else serverSize
  if mu ≤ 0 ∨ s ≤ 0 then
    .error ("The parameter mu or server size cannot be equal to or less than 0.")
  else
    match MMSQClientEx lambda mu s 15 with
    | .error e => .error e
    | .ok lq => .ok (roundDec (lq / lambda) d)

/-- `MMSSTimeEx`: `Ws = Wq + 1/mu`. -/
def MMSSTimeEx (lambda mu serverSize : ℚ) (d : ℕ) : Except String ℚ :=
  wrapErr ("Expected value of the number of customers in the queue error: ") <|
  let s := if serverSize = 0 then 1 else serverSize
  if mu ≤ 0 ∨ s ≤ 0 then
    .error ("The parameter mu or server size cannot be equal to or less than 0.")
  else
    match MMSQTimeEx lambda mu s 15 with
    | .error e => .error e
    | .ok wq => .ok (roundDec (wq + 1 / mu) d)

/-- The `mu = 0` guard message shared by the M/M/1/k functions. -/
def muZeroMsg : String := "The parameter mu cannot be equal to zero (0)."

/-- The `limit = 0` guard message shared by the M/M/1/k functions. -/
def limitZeroMsg : String := "The parameter limit cannot be equal to zero (0)."

/-! ## M/M/1/k model (`src/research/Cost/cost.ts`, second document) -/

/-- `MMKQtyServerBusy`: `(lambda/mu)^n` for `n <= k`, otherwise `0`;
fails on `mu = 0`, on `k = 0` and on `n < 0`. -/
def MMKQtyServerBusy (lambda mu iteration limit : ℚ) (d : ℕ) : Except String ℚ :=
  wrapErr ("M/M/1/k Quantity of Servers Busy error: ") <|
  if mu = 0 then .error muZeroMsg
  else if limit = 0 then .error limitZeroMsg
  else if iteration < 0 then .error ("The parameter iteration cannot be lower than zero (0).")
  else if iteration ≤ limit then .ok (roundDec (ratPow (lambda / mu) iteration) d)
  else .ok 0

/-- `MMKInitialProbability`: `P0 = (1 - rho) / (1 - rho^(k+1))` with
`rho = Rho(lambda, mu, 1, 15)`; fails on `mu = 0`, `k = 0` and `rho = 1`. -/
def MMKInitialProbability (lambda mu limit : ℚ) (d : ℕ) : Except String ℚ :=
  wrapErr ("M/M/1/k Initial Probability error: ") <|
  if mu = 0 then .error muZeroMsg
  else if limit = 0 then .error limitZeroMsg
  else
    match Rho lambda mu 1 15 with
    | .error e => .error e
    | .ok rho =>
      if rho = 1 then .error ("The utilization factor rho is equal to one (1). Cannot compute.")
      else .ok (roundDec ((1 - rho) / (1 - ratPow rho (limit + 1))) d)

/-- `MMKNProbability`: `Pn = P0 * rho^n`. -/
def MMKNProbability (lambda mu iteration limit : ℚ) (d : ℕ) : Except String ℚ :=
  wrapErr ("M/M/1/k n Probability error: ") <|
  if mu = 0 then .error muZeroMsg
  else if limit = 0 then .error limitZeroMsg
  else
    match Rho lambda mu 1 15 with
    | .error e => .error e
    | .ok rho =>
      match MMKInitialProbability lambda mu limit 15 with
      | .error e => .error e
      | .ok po => .ok (roundDec (po * ratPow rho iteration) d)

/-- `MMKSClientEx`: `Ls = rho/(1-rho) - ((k+1)*rho^(k+1))/(1-rho^(k+1))`. -/
def MMKSClientEx (lambda mu limit : ℚ) (d : ℕ) : Except String ℚ :=
  wrapErr ("M/M/1/k Server Clients Expected error: ") <|
  if mu = 0 then .error muZeroMsg
  else if limit = 0 then .error limitZeroMsg
  else
    match Rho lambda mu 1 15 with
    | .error e => .error e
    | .ok rho =>
      .ok (roundDec (rho / (1 - rho) -
        (limit + 1) * ratPow rho (limit + 1) / (1 - ratPow rho (limit + 1))) d)

/-- `MMKQClientEx`: `Lq = Ls - (1 - P0)`. -/
def MMKQClientEx (lambda mu limit : ℚ) (d : ℕ) : Except String ℚ :=
  wrapErr ("M/M/1/k Queue Clients Expected error: ") <|
  if mu = 0 then .error muZeroMsg
  else if limit = 0 then .error limitZeroMsg
  else
    match MMKSClientEx lambda mu limit 15 with
    | .error e => .error e
    | .ok ls =>
      match MMKInitialProbability lambda mu limit 15 with
      | .error e => .error e
      | .ok po => .ok (roundDec (ls - (1 - po)) d)

/-- `MMKQTimeEx`: `Wq = Lq / lambda`. -/
def MMKQTimeEx (lambda mu limit : ℚ) (d : ℕ) : Except String ℚ :=
  wrapErr ("M/M/1/k Queue Time Expected error: ") <|
  if mu = 0 then .error muZeroMsg
  else if limit = 0 then .error limitZeroMsg
  else
    match MMKQClientEx lambda mu limit 15 with
    | .error e => .error e
    | .ok lq => .ok (roundDec (lq / lambda) d)

/-- `MMKSTimeEx`: `Ws = Ls / lambda`. -/
def MMKSTimeEx (lambda mu limit : ℚ) (d : ℕ) : Except String ℚ :=
  wrapErr ("M/M/1/k Server Time Expected error: ") <|
  if mu = 0 then .error muZeroMsg
  else if limit = 0 then .error limitZeroMsg
  else
    match MMKSClientEx lambda mu limit 15 with
    | .error e => .error e
    | .ok ls => .ok (roundDec (ls / lambda) d)

/-! ## M/M/s/k model (`src/research/MultiServer`, file `part_003`) -/

/-- `MMSKNLambda`: the arrival rate rounded, or `0` beyond capacity
(`n > k`). -/
def MMSKNLambda (lambda iteration limit : ℚ) (d : ℕ) : ℚ :=
  if limit < iteration then 0 else roundDec lambda d

/-- `MMSKQtyServerBusy`: `(1/mu)^n/n!` for `n <= s`; for `s < n <= k` the
blocked-rate correction
`((l/mu)^s/s!) * (l/(mu*s))^(n-s) - (l/mu)^n/(s!*s^(n-s))` with
`l = MMSKNLambda(lambda, n, k, 15)`; `0` for `n > k`. -/
def MMSKQtyServerBusy (lambda mu serverSize iteration limit : ℚ) (d : ℕ) : Except String ℚ :=
  wrapErr ("M/M/s/k Quantity of Servers Busy error: ") <|
  let l := MMSKNLambda lambda iteration limit 15
  if mu = 0 then .error ("The parameter mu cannot be equal to zero (0).")
  else if serverSize = 0 then .error ("The parameter serverSize cannot be equal to zero (0).")
  else if limit = 0 then .error ("The parameter limit cannot be equal to zero (0).")
  else if limit < serverSize then
    .error ("The parameter limit cannot be lower than the server size.")
  else if iteration < 0 then .error ("The parameter iteration cannot be lower than zero (0).")
  else if iteration ≤ serverSize then
    .ok (roundDec (ratPow (1 / mu) iteration / ratFactorial iteration) d)
  else if iteration ≤ limit then
    .ok (roundDec (ratPow (l / mu) serverSize / ratFactorial serverSize *
      ratPow (l / (mu * serverSize)) (iteration - serverSize) -
      ratPow (l / mu) iteration /
        (ratFactorial serverSize * ratPow serverSize (iteration - serverSize))) d)
  else .ok 0

/-- `MMSKInitialProbability`:
`P0 = 1/(Sum_{n=0}^{s} (l/mu)^n/n! + ((l/mu)^s/s!) * Sum_{n=s+1}^{k} (l/(s*mu))^(n-s))`
with `l = MMSKNLambda(lambda, 0, k, 15)`; requires `k >= s+1`. -/
def MMSKInitialProbability (lambda mu serverSize limit : ℚ) (d : ℕ) : Except String ℚ :=
  wrapErr ("M/M/s/k Initial Probability error: ") <|
  let l := MMSKNLambda lambda 0 limit 15
  if mu = 0 then .error ("The parameter mu cannot be equal to zero (0).")
  else if serverSize ≤ 0 then
    .error ("The parameter serverSize cannot be equal to zero (0) or minor to one (serverSize < 1).")
  else if limit = 0 then .error ("The parameter limit cannot be equal to zero (0).")
  else if limit < serverSize + 1 then
    .error ("The parameter limit cannot be lower than the server size plus 1.")
  else
    let sum1 := Summation 0 serverSize (fun n => ratPow (l / mu) n / ratFactorial n) 15
    let sum2 := Summation (serverSize + 1) limit
      (fun n => ratPow (l / (serverSize * mu)) (n - serverSize)) 15
    .ok (roundDec (1 / (sum1 + ratPow (l / mu) serverSize / ratFactorial serverSize * sum2)) d)

/-- `MMSKNProbability`: `(1/mu)^n/n! * P0` for `n <= s`,
`(l/mu)^n/(s!*s^(n-s)) * P0` for `s < n <= k`, `0` for `n > k`;
`P0 = MMSKInitialProbability(l, mu, s, k, 15)`. -/
def MMSKNProbability (lambda mu serverSize iteration limit : ℚ) (d : ℕ) : Except String ℚ :=
  wrapErr ("M/M/s/k n Probability error: ") <|
  let l := MMSKNLambda lambda iteration limit 15
  if mu = 0 then .error ("The parameter mu cannot be equal to zero (0).")
  else if serverSize ≤ 0 then
    .error ("The parameter serverSize cannot be equal to zero (0) or minor to one (serverSize < 1).")
  else if limit = 0 then .error ("The parameter limit cannot be equal to zero (0).")
  else if limit < serverSize then
    .error ("The parameter limit cannot be lower than the server size.")
  else if iteration < 0 then .error ("The parameter iteration cannot be lower than zero (0).")
  else
    match MMSKInitialProbability l mu serverSize limit 15 with
    | .error e => .error e
    | .ok po =>
      if iteration ≤ serverSize then
        .ok (roundDec (ratPow (1 / mu) iteration / ratFactorial iteration * po) d)
      else if iteration ≤ limit then
        .ok (roundDec (ratPow (l / mu) iteration /
          (ratFactorial serverSize * ratPow serverSize (iteration - serverSize)) * po) d)
      else .ok 0

/-- `MMSKQClientEx`: the closed-form finite-capacity queue length
`P0*(l/mu)^s/(s!*(1-rho)^2) * (rho*(1 - rho^(k-s) - (k-s)*rho^(k-s)*(1-rho)))`. -/
def MMSKQClientEx (lambda mu serverSize limit : ℚ) (d : ℕ) : Except String ℚ :=
  wrapErr ("M/M/s/k Queue Expected Clients error: ") <|
  let l := MMSKNLambda lambda 0 limit 15
  if mu = 0 then .error ("The parameter mu cannot be equal to zero (0).")
  else if serverSize ≤ 0 then
    .error ("The parameter serverSize cannot be equal to zero (0) or minor to one (serverSize < 1).")
  else if limit < serverSize + 1 then
    .error ("The parameter limit cannot be lower than the server size plus 1.")
  else
    match MMSKInitialProbability l mu serverSize limit 15 with
    | .error e => .error e
    | .ok po =>
      match Rho l mu serverSize 15 with
      | .error e => .error e
      | .ok rho =>
        .ok (roundDec (po * ratPow (l / mu) serverSize /
          (ratFactorial serverSize * (1 - rho) ^ 2) *
          (rho * (1 - ratPow rho (limit - serverSize) -
            (limit - serverSize) * ratPow rho (limit - serverSize) * (1 - rho)))) d)

/-- `MMSKSClientEx`: `Ls = Sum_{i=1}^{s-1} i*Pn(i) + Lq + s*(1 - (P0 + Sum_{i=1}^{s-1} Pn(i)))`,
accumulated by the manual loop of the source. -/
def MMSKSClientEx (lambda mu serverSize limit : ℚ) (d : ℕ) : Except String ℚ :=
  wrapErr ("M/M/s/k System Expected Clients error: ") <|
  let l := MMSKNLambda lambda 0 limit 15
  if mu = 0 then .error ("The parameter mu cannot be equal to zero (0).")
  else if serverSize ≤ 0 then
    .error ("The parameter serverSize cannot be equal to zero (0) or minor to one (serverSize < 1).")
  else if limit = 0 then .error ("The parameter limit cannot be equal to zero (0).")
  else if limit < serverSize + 1 then
    .error ("The parameter limit cannot be lower than the server size plus 1.")
  else
    match MMSKQClientEx l mu serverSize limit 15 with
    | .error e => .error e
    | .ok lq =>
      match MMSKInitialProbability l mu serverSize limit 15 with
      | .error e => .error e
      | .ok po =>
        let cnt := summationCount 1 (serverSize - 1)
        match (List.range cnt).mapM
            (fun j => MMSKNProbability l mu serverSize (1 + (j : ℚ)) limit 15) with
        | .error e => .error e
        | .ok pns =>
          let sum1 := (pns.enum.map (fun p => (1 + (p.1 : ℚ)) * p.2)).sum
          let sum2 := po + pns.sum
          .ok (roundDec (sum1 + lq + serverSize * (1 - sum2)) d)

/-- `MMSKQTimeEx`: `Wq = Lq / (l * (1 - Pk))` with `Pk = MMSKNProbability(l, mu, s, k, k, 15)`. -/
def MMSKQTimeEx (lambda mu serverSize limit : ℚ) (d : ℕ) : Except String ℚ :=
  wrapErr ("M/M/s/k Queue Expected Time error: ") <|
  let l := MMSKNLambda lambda 0 limit 15
  if mu = 0 then .error ("The parameter mu cannot be equal to zero (0).")
  else if serverSize ≤ 0 then
    .error ("The parameter serverSize cannot be equal to zero (0) or minor to one (serverSize < 1).")
  else if limit = 0 then .error ("The parameter limit cannot be equal to zero (0).")
  else if limit < serverSize + 1 then
    .error ("The parameter limit cannot be lower than the server size plus 1.")
  else
    match MMSKNProbability l mu serverSize limit limit 15 with
    | .error e => .error e
    | .ok pk =>
      match MMSKQClientEx l mu serverSize limit 15 with
      | .error e => .error e
      | .ok lq => .ok (roundDec (lq / (l * (1 - pk))) d)

/-- `MMSKSTimeEx`: `Ws = Ls / (l * (1 - Pk))`. -/
def MMSKSTimeEx (lambda mu serverSize limit : ℚ) (d : ℕ) : Except String ℚ :=
  wrapErr ("M/M/s/k System Expected Time error: ") <|
  let l := MMSKNLambda lambda 0 limit 15
  if mu = 0 then .error ("The parameter mu cannot be equal to zero (0).")
  else if serverSize ≤ 0 then
    .error ("The parameter serverSize cannot be equal to zero (0) or minor to one (serverSize < 1).")
  else if limit = 0 then .error ("The parameter limit cannot be equal to zero (0).")
  else if limit < serverSize + 1 then
    .error ("The parameter limit cannot be lower than the server size plus 1.")
  else
    match MMSKNProbability l mu serverSize limit limit 15 with
    | .error e => .error e
    | .ok pk =>
      match MMSKSClientEx l mu serverSize limit 15 with
      | .error e => .error e
      | .ok ls => .ok (roundDec (ls / (l * (1 - pk))) d)

/-! ## M/G/1 model (file `part_006`) -/

/-- `MGInitialProbability`: `P0 = 1 - rho`. -/
def MGInitialProbability (lambda mu : ℚ) (d : ℕ) : Except String ℚ :=
  wrapErr ("M/G/1 Initial Probability error: ") <|
  if mu = 0 then .error ("The parameter mu cannot be equal to zero (0).")
  else
    match Rho lambda mu 1 15 with
    | .error e => .error e
    | .ok rho => .ok (roundDec (1 - rho) d)

/-- `MGNProbability`: `Pn = rho^n * P0` with `P0 = SSInitialProbability(lambda, mu, 15)`;
requires `n >= 1`. -/
def MGNProbability (lambda mu iteration : ℚ) (d : ℕ) : Except String ℚ :=
  wrapErr ("M/G/1 N Probability error: ") <|
  if mu = 0 then .error ("The parameter mu cannot be equal to zero (0).")
  else if iteration < 1 then .error ("The parameter n cannot be lower than one (1).")
  else
    match Rho lambda mu 1 15 with
    | .error e => .error e
    | .ok rho =>
      match SSInitialProbability lambda mu 15 with
      | .error e => .error e
      | .ok po => .ok (roundDec (ratPow rho iteration * po) d)

/-- `MGQClientEx`: `Lq = ((lambda^2)*(v^2) + rho^2) / (2*(1-rho))`. -/
def MGQClientEx (lambda mu variation : ℚ) (d : ℕ) : Except String ℚ :=
  wrapErr ("M/G/1 Queue Clients Expected error: ") <|
  if mu = 0 then .error ("The parameter mu cannot be equal to zero (0).")
  else
    match Rho lambda mu 1 15 with
    | .error e => .error e
    | .ok rho => .ok (roundDec ((lambda ^ 2 * variation ^ 2 + rho ^ 2) / (2 * (1 - rho))) d)

/-- `MGSClientEx`: `Ls = rho + Lq`. -/
def MGSClientEx (lambda mu variation : ℚ) (d : ℕ) : Except String ℚ :=
  wrapErr ("M/G/1 System Clients Expected error: ") <|
  if mu = 0 then .error ("The parameter mu cannot be equal to zero (0).")
  else
    match Rho lambda mu 1 15 with
    | .error e => .error e
    | .ok rho =>
      match MGQClientEx lambda mu variation 15 with
      | .error e => .error e
      | .ok lq => .ok (roundDec (rho + lq) d)

/-- `MGQTimeEx`: `Wq = Lq / lambda`. -/
def MGQTimeEx (lambda mu variation : ℚ) (d : ℕ) : Except String ℚ :=
  wrapErr ("M/G/1 Queue Time Expected error: ") <|
  if mu = 0 then .error ("The parameter mu cannot be equal to zero (0).")
  else
    match MGQClientEx lambda mu variation 15 with
    | .error e => .error e
    | .ok lq => .ok (roundDec (lq / lambda) d)

/-- `MGSTimeEx`: `Ws = Wq + 1/mu`. -/
def MGSTimeEx (lambda mu variation : ℚ) (d : ℕ) : Except String ℚ :=
  wrapErr ("M/G/1 System Time Expected error: ") <|
  if mu = 0 then .error ("The parameter mu cannot be equal to zero (0).")
  else
    match MGQTimeEx lambda mu variation 15 with
    | .error e => .error e
    | .ok wq => .ok (roundDec (wq + 1 / mu) d)

/-! ## Model dispatcher (file `part_005`)

The dispatcher functions validate the selector, switch on it, call the
matching per-model function and wrap the outcome into the `ModelResult`
envelope.  In the `QtyServerBusy` case for model 4 the source calls
`MMSKQtyServerBusy(mu, s, n, k, decimals)` against the six-parameter
signature `(lambda, mu, serverSize, iteration, limit, decimals)`: every
argument lands one slot to the left of its intended role and `decimals`
falls back to its default `4`; the embedding reproduces that call as
written.  In the `QClientEx`/`SClientEx`/`QTimeEx`/`STimeEx` case for
model 1 the source passes `(lambda, mu, 1, decimals)` where the third
argument is the single-server `serverSize = 1`, which the single-server
formulas fix implicitly. -/

/-- The uniform `{result, message}` envelope of the dispatcher layer;
`result = none` models the JavaScript `null`. -/
structure ModelResult : Type where
  result : Option ℚ
  message : String
deriving DecidableEq

/-- `QtyServerBusy` dispatcher. -/
def QtyServerBusy (model lambda mu serverSize iteration limit : ℚ) (d : ℕ) :
    Except String ModelResult :=
  wrapErr ("Quantity of Server Busy function picker error: ") <|
  if model ≤ 0 ∨ 5 < model then
    .error ("The parameter model must be between 1 and 5 (inclusive).")
  else if model = 1 then
    .ok ⟨none, "The M/M/1 model does not quantify the occupied servers."⟩
  else if model = 2 then
    match MMSQtyServerBusy lambda mu serverSize iteration d with
    | .error e => .error e
    | .ok r => .ok ⟨some r, "Successful calculation for the M/M/s model."⟩
  else if model = 3 then
    match MMKQtyServerBusy lambda mu iteration limit d with
    | .error e => .error e
    | .ok r => .ok ⟨some r, "Successful calculation for the M/M/1/k model."⟩
  else if model = 4 then
    match MMSKQtyServerBusy mu serverSize iteration limit (d : ℚ) 4 with
    | .error e => .error e
    | .ok r => .ok ⟨some r, "Successful calculation for the M/M/s/k model."⟩
  else if model = 5 then
    .ok ⟨none, "The M/G/1 model does not quantify the occupied servers."⟩
  else .ok ⟨none, "Invalid queuing model selected."⟩

/-- `InitialProbability` dispatcher. -/
def InitialProbability (model lambda mu serverSize limit : ℚ) (d : ℕ) :
    Except String ModelResult :=
  wrapErr ("Initial Probability function picker error: ") <|
  if model ≤ 0 ∨ 5 < model then
    .error ("The parameter model must be between 1 and 5 (inclusive).")
  else if model = 1 then
    match SSInitialProbability lambda mu d with
    | .error e => .error e
    | .ok r => .ok ⟨some r, "Successful calculation for the M/M/1 model."⟩
  else if model = 2 then
    match MMSInitialProbability lambda mu serverSize d with
    | .error e => .error e
    | .ok r => .ok ⟨some r, "Successful calculation for the M/M/s model."⟩
  else if model = 3 then
    match MMKInitialProbability lambda mu limit d with
    | .error e => .error e
    | .ok r => .ok ⟨some r, "Successful calculation for the M/M/1/k model."⟩
  else if model = 4 then
    match MMSKInitialProbability lambda mu serverSize limit d with
    | .error e => .error e
    | .ok r => .ok ⟨some r, "Successful calculation for the M/M/s/k model."⟩
  else if model = 5 then
    match MGInitialProbability lambda mu d with
    | .error e => .error e
    | .ok r => .ok ⟨some r, "Successful calculation for the M/G/1 model."⟩
  else .ok ⟨none, "Invalid queuing model selected."⟩

/-- `NProbability` dispatcher. -/
def NProbability (model lambda mu serverSize iteration limit : ℚ) (d : ℕ) :
    Except String ModelResult :=
  wrapErr ("N Probability Method Picker error: ") <|
  if model ≤ 0 ∨ 5 < model then
    .error ("The parameter model must be between 1 and 5 (inclusive).")
  else if model = 1 then
    match SSNProbability lambda mu iteration d with
    | .error e => .error e
    | .ok r => .ok ⟨some r, "Successful calculation for the M/M/1 model."⟩
  else if model = 2 then
    match MMSNProbability lambda mu serverSize iteration d with
    | .error e => .error e
    | .ok r => .ok ⟨some r, "Successful calculation for the M/M/s model."⟩
  else if model = 3 then
    match MMKNProbability lambda mu iteration limit d with
    | .error e => .error e
    | .ok r => .ok ⟨some r, "Successful calculation for the M/M/1/k model."⟩
  else if model = 4 then
    match MMSKNProbability lambda mu serverSize iteration limit d with
    | .error e => .error e
    | .ok r => .ok ⟨some r, "Successful calculation for the M/M/s/k model."⟩
  else if model = 5 then
    match MGNProbability lambda mu iteration d with
    | .error e => .error e
    | .ok r => .ok ⟨some r, "Successful calculation for the M/G/1 model."⟩
  else .ok ⟨none, "Invalid queuing model selected."⟩

/-- `QClientEx` dispatcher. -/
def QClientEx (model lambda mu serverSize variation limit : ℚ) (d : ℕ) :
    Except String ModelResult :=
  wrapErr ("Expected clients in queue Method Picker error: ") <|
  if model ≤ 0 ∨ 5 < model then
    .error ("The parameter model must be between 1 and 5 (inclusive).")
  else if model = 1 then
    match SSQClientEx lambda mu d with
    | .error e => .error e
    | .ok r => .ok ⟨some r, "Successful calculation for the M/M/1 model."⟩
  else if model = 2 then
    match MMSQClientEx lambda mu serverSize d with
    | .error e => .error e
    | .ok r => .ok ⟨some r, "Successful calculation for the M/M/s model."⟩
  else if model = 3 then
    match MMKQClientEx lambda mu limit d with
    | .error e => .error e
    | .ok r => .ok ⟨some r, "Successful calculation for the M/M/1/k model."⟩
  else if model = 4 then
    match MMSKQClientEx lambda mu serverSize limit d with
    | .error e => .error e
    | .ok r => .ok ⟨some r, "Successful calculation for the M/M/s/k model."⟩
  else if model = 5 then
    match MGQClientEx lambda mu variation d with
    | .error e => .error e
    | .ok r => .ok ⟨some r, "Successful calculation for the M/G/1 model."⟩
  else .ok ⟨none, "Invalid queuing model selected."⟩

/-- `SClientEx` dispatcher. -/
def SClientEx (model lambda mu serverSize variation limit : ℚ) (d : ℕ) :
    Except String ModelResult :=
  wrapErr ("Expected clients in system Method Picker error: ") <|
  if model ≤ 0 ∨ 5 < model then
    .error ("The parameter model must be between 1 and 5 (inclusive).")
  else if model = 1 then
    match SSSClientEx lambda mu d with
    | .error e => .error e
    | .ok r => .ok ⟨some r, "Successful calculation for the M/M/1 model."⟩
  else if model = 2 then
    match MMSSClientEx lambda mu serverSize d with
    | .error e => .error e
    | .ok r => .ok ⟨some r, "Successful calculation for the M/M/s model."⟩
  else if model = 3 then
    match MMKSClientEx lambda mu limit d with
    | .error e => .error e
    | .ok r => .ok ⟨some r, "Successful calculation for the M/M/1/k model."⟩
  else if model = 4 then
    match MMSKSClientEx lambda mu serverSize limit d with
    | .error e => .error e
    | .ok r => .ok ⟨some r, "Successful calculation for the M/M/s/k model."⟩
  else if model = 5 then
    match MGSClientEx lambda mu variation d with
    | .error e => .error e
    | .ok r => .ok ⟨some r, "Successful calculation for the M/G/1 model."⟩
  else .ok ⟨none, "Invalid queuing model selected."⟩

/-- `QTimeEx` dispatcher. -/
def QTimeEx (model lambda mu serverSize variation limit : ℚ) (d : ℕ) :
    Except String ModelResult :=
  wrapErr ("Expected time in queue Method Picker error: ") <|
  if model ≤ 0 ∨ 5 < model then
    .error ("The parameter model must be between 1 and 5 (inclusive).")
  else if model = 1 then
    match SSQTimeEx lambda mu d with
    | .error e => .error e
    | .ok r => .ok ⟨some r, "Successful calculation for the M/M/1 model."⟩
  else if model = 2 then
    match MMSQTimeEx lambda mu serverSize d with
    | .error e => .error e
    | .ok r => .ok ⟨some r, "Successful calculation for the M/M/s model."⟩
  else if model = 3 then
    match MMKQTimeEx lambda mu limit d with
    | .error e => .error e
    | .ok r => .ok ⟨some r, "Successful calculation for the M/M/1/k model."⟩
  else if model = 4 then
    match MMSKQTimeEx lambda mu serverSize limit d with
    | .error e => .error e
    | .ok r => .ok ⟨some r, "Successful calculation for the M/M/s/k model."⟩
  else if model = 5 then
    match MGQTimeEx lambda mu variation d with
    | .error e => .error e
    | .ok r => .ok ⟨some r, "Successful calculation for the M/G/1 model."⟩
  else .ok ⟨none, "Invalid queuing model selected."⟩

/-- `STimeEx` dispatcher. -/
def STimeEx (model lambda mu serverSize variation limit : ℚ) (d : ℕ) :
    Except String ModelResult :=
  wrapErr ("Expected time in system Method Picker error: ") <|
  if model ≤ 0 ∨ 5 < model then
    .error ("The parameter model must be between 1 and 5 (inclusive).")
  else if model = 1 then
    match SSSTimeEx lambda mu d with
    | .error e => .error e
    | .ok r => .ok ⟨some r, "Successful calculation for the M/M/1 model."⟩
  else if model = 2 then
    match MMSSTimeEx lambda mu serverSize d with
    | .error e => .error e
    | .ok r => .ok ⟨some r, "Successful calculation for the M/M/s model."⟩
  else if model = 3 then
    match MMKSTimeEx lambda mu limit d with
    | .error e => .error e
    | .ok r => .ok ⟨some r, "Successful calculation for the M/M/1/k model."⟩
  else if model = 4 then
    match MMSKSTimeEx lambda mu serverSize limit d with
    | .error e => .error e
    | .ok r => .ok ⟨some r, "Successful calculation for the M/M/s/k model."⟩
  else if model = 5 then
    match MGSTimeEx lambda mu variation d with
    | .error e => .error e
    | .ok r => .ok ⟨some r, "Successful calculation for the M/G/1 model."⟩
  else .ok ⟨none, "Invalid queuing model selected."⟩

/-- `ModelName` dispatcher. -/
def ModelName (model : ℚ) : Except String ModelResult :=
  wrapErr ("Model Name Picker error: ") <|
  if model ≤ 0 ∨ 5 < model then
    .error ("The parameter model must be between 1 and 5 (inclusive).")
  else if model = 1 then .ok ⟨some 1, "M/M/1 model"⟩
  else if model = 2 then .ok ⟨some 2, "M/M/s model"⟩
  else if model = 3 then .ok ⟨some 3, "M/M/1/k model"⟩
  else if model = 4 then .ok ⟨some 4, "M/M/s/k model"⟩
  else if model = 5 then .ok ⟨some 5, "M/G/1 model"⟩
  else .ok ⟨none, "Invalid queuing model selected."⟩

/-! ## Evaluation helper lemmas -/

theorem wrapErr_ok {α : Type} (pre : String) (v : α) :
    wrapErr pre (.ok v) = .ok v := rfl

theorem wrapErr_error {α : Type} (pre : String) (e : String) :
    wrapErr pre (.error e : Except String α) = .error (pre ++ e) := rfl

theorem ratPow_intCast (b : ℚ) (m : ℤ) : ratPow b (m : ℚ) = b ^ m := by
  simp [ratPow]

theorem ratPow_natCast (b : ℚ) (n : ℕ) : ratPow b (n : ℚ) = b ^ n := by
  have : ((n : ℤ) : ℚ) = (n : ℚ) := by push_cast; ring
  rw [← this, ratPow_intCast, zpow_natCast]

theorem ratFactorial_natCast (n : ℕ) :
    ratFactorial (n : ℚ) = (Nat.factorial n : ℚ) := by
  have h : ((n : ℚ)).den = 1 ∧ 0 ≤ ((n : ℚ)).num := by
    constructor
    · simp [Rat.den_natCast]
    · simp
  simp only [ratFactorial, if_pos h]
  norm_num

theorem roundDec_intCast (m : ℤ) (d : ℕ) : roundDec (m : ℚ) d = m := by
  have h : ((m : ℚ)) * 10 ^ d = ((m * 10 ^ d : ℤ) : ℚ) := by push_cast; ring
  have h10 : (10 : ℚ) ^ d ≠ 0 := by positivity
  rw [roundDec, h, round_intCast]
  push_cast
  field_simp

/-- `roundDec` is the identity on rationals that are exactly representable
with `d` decimal places. -/
theorem roundDec_eq_self (x : ℚ) (d : ℕ) (m : ℤ) (h : x * 10 ^ d = (m : ℚ)) :
    roundDec x d = x := by
  have h10 : (10 : ℚ) ^ d ≠ 0 := by positivity
  rw [roundDec, h]
  rw [round_intCast]
  field_simp at h ⊢
  linarith [h]

/-- Rounding to `d` decimals moves a value by at most half an ulp. -/
theorem abs_roundDec_sub (x : ℚ) (d : ℕ) :
    |roundDec x d - x| ≤ 1 / (2 * 10 ^ d) := by
  have h10 : (0 : ℚ) < 10 ^ d := by positivity
  have h := abs_sub_round (x * 10 ^ d)
  rw [abs_sub_comm] at h
  have hrw : roundDec x d - x = ((round (x * 10 ^ d) : ℚ) - x * 10 ^ d) / 10 ^ d := by
    rw [roundDec]; field_simp; ring
  rw [hrw, abs_div, abs_of_pos h10]
  rw [div_le_div_iff₀ h10 (by positivity)]
  calc |(round (x * 10 ^ d) : ℚ) - x * 10 ^ d| * (2 * 10 ^ d)
      ≤ (1 / 2) * (2 * 10 ^ d) := by
        apply mul_le_mul_of_nonneg_right h (by positivity)
    _ = 1 * 10 ^ d := by ring

theorem roundDec_zero (d : ℕ) : roundDec 0 d = 0 := by
  simp [roundDec]

theorem Rho_ok (lambda mu serverSize : ℚ) (d : ℕ)
    (h1 : mu ≠ 0) (h2 : 0 < serverSize) :
    Rho lambda mu serverSize d = .ok (roundDec (lambda / (mu * serverSize)) d) := by
  rw [Rho, if_neg h1, if_neg (not_le.mpr h2), wrapErr_ok]


theorem ratPow_zero (b : ℚ) : ratPow b 0 = 1 := by
  rw [show (0 : ℚ) = ((0 : ℤ) : ℚ) by norm_num, ratPow_intCast, zpow_zero]

theorem ratPow_one (b : ℚ) : ratPow b 1 = b := by
  rw [show (1 : ℚ) = ((1 : ℤ) : ℚ) by norm_num, ratPow_intCast, zpow_one]

theorem ratPow_two (b : ℚ) : ratPow b 2 = b ^ 2 := by
  rw [show (2 : ℚ) = ((2 : ℕ) : ℚ) by norm_num, ratPow_natCast]

theorem ratFactorial_zero : ratFactorial 0 = 1 := by
  rw [show (0 : ℚ) = ((0 : ℕ) : ℚ) by norm_num, ratFactorial_natCast]
  norm_num [Nat.factorial]

theorem ratFactorial_one : ratFactorial 1 = 1 := by
  rw [show (1 : ℚ) = ((1 : ℕ) : ℚ) by norm_num, ratFactorial_natCast]
  norm_num [Nat.factorial]

theorem ratFactorial_two : ratFactorial 2 = 2 := by
  rw [show (2 : ℚ) = ((2 : ℕ) : ℚ) by norm_num, ratFactorial_natCast]
  norm_num [Nat.factorial]

/-! ## Claim theorems -/

/-- C8: `Summation` evaluates the expression once per integer step from
`lowerLimit` to `upperLimit` inclusive, so `Summation(a, a, "n") = a` for
every integer `a` and `Summation(a, b, "n") = 0` (the empty sum) whenever
`b < a`. -/
theorem summation_single_point_and_empty (a b : ℤ) (d : ℕ) (h : b < a) :
    Summation (a : ℚ) (a : ℚ) nExpr d = (a : ℚ) ∧
    Summation (a : ℚ) (b : ℚ) nExpr d = 0 := by
  constructor
  · have hc : summationCount (a : ℚ) (a : ℚ) = 1 := by
      simp [summationCount]
    rw [Summation, hc]
    simp only [Finset.sum_range_one, Nat.cast_zero, add_zero, nExpr]
    exact roundDec_intCast a d
  · have hb : (b : ℚ) < (a : ℚ) := by exact_mod_cast h
    have hc : summationCount (a : ℚ) (b : ℚ) = 0 := by
      simp [summationCount, hb]
    rw [Summation, hc]
    simp [roundDec_zero]

/-- Witness for C8 at `a = 3`, `b = 1`, `d = 4`. -/
theorem summation_single_point_and_empty_witness :
    Summation ((3 : ℤ) : ℚ) ((3 : ℤ) : ℚ) nExpr 4 = ((3 : ℤ) : ℚ) ∧
    Summation ((3 : ℤ) : ℚ) ((1 : ℤ) : ℚ) nExpr 4 = 0 :=
  summation_single_point_and_empty 3 1 4 (by norm_num)

/-- C2, counterexample to the claimed value: `Convert(30, 60, 3600)` with
default decimals evaluates to `2`, not `0.5`. -/
theorem convert_thirty_minutes_returns_two :
    Convert 30 60 3600 4 = .ok 2 ∧ (2 : ℚ) ≠ 1 / 2 := by
  constructor
  · rw [Convert, if_neg (by norm_num), if_neg (by norm_num), if_neg (by norm_num), wrapErr_ok]
    rw [show (1 / (30 * 60) * 3600 : ℚ) = 2 by norm_num]
    rw [roundDec_eq_self 2 4 20000 (by norm_num)]
  · norm_num

/-- C2, amended: `Convert(sourceValue, sourceUnit, targetUnit, decimals)`
returns `(1/(sourceValue*sourceUnit))*targetUnit` rounded to the requested
decimals whenever all three arguments are nonzero; in particular
`Convert(30, 60, 3600)` with default decimals returns `2`. -/
theorem convert_formula (sv su tu : ℚ) (d : ℕ)
    (h1 : sv ≠ 0) (h2 : su ≠ 0) (h3 : tu ≠ 0) :
    Convert sv su tu d = .ok (roundDec (1 / (sv * su) * tu) d) ∧
    Convert 30 60 3600 4 = .ok 2 := by
  constructor
  · rw [Convert, if_neg h1, if_neg h2, if_neg h3, wrapErr_ok]
  · rw [Convert, if_neg (by norm_num), if_neg (by norm_num), if_neg (by norm_num), wrapErr_ok]
    rw [show (1 / (30 * 60) * 3600 : ℚ) = 2 by norm_num]
    rw [roundDec_eq_self 2 4 20000 (by norm_num)]

/-- Witness for C2 (amended) at the documented scenario. -/
theorem convert_formula_witness :
    Convert 30 60 3600 4 = .ok (roundDec (1 / (30 * 60) * 3600) 4) ∧
    Convert 30 60 3600 4 = .ok 2 :=
  convert_formula 30 60 3600 4 (by norm_num) (by norm_num) (by norm_num)

/-- C3: evaluating the code at the failing input.  With all other
parameters defaulted (`total = 100`, `type = true`, `decimals = 4`),
`Percent(0.25)` of `src/basic/basic.ts` lands in the DIVISION branch
(because `true && typeof true === "string"` is `false`) and produces the
number `0.25` in front of the percent sign, i.e. the string `"0.25%"`;
the revised variant of the same function (`part_007`), the function
documentation and the test suite all give `25`, i.e. `"25%"`. -/
theorem percent_default_takes_division_branch :
    Percent (1 / 4) 100 (.bool true) 4 = .ok (1 / 4) ∧
    PercentV2 (1 / 4) 100 (.bool true) 4 = .ok 25 ∧ (1 / 4 : ℚ) ≠ 25 := by
  refine ⟨?_, ?_, by norm_num⟩
  · rw [Percent, if_neg (by norm_num)]
    rw [show ((PercentType.bool true).truthy && (PercentType.bool true).isString &&
      (PercentType.bool true).isMultiply) = false from rfl]
    simp only [Bool.false_eq_true, if_false, wrapErr_ok]
    rw [show (1 / 4 / 100 * 100 : ℚ) = 1 / 4 by norm_num]
    rw [roundDec_eq_self (1 / 4) 4 2500 (by norm_num)]
  · rw [PercentV2, if_neg (by norm_num)]
    rw [show (1 / 4 * 100 : ℚ) = 25 by norm_num]
    rw [roundDec_eq_self 25 4 250000 (by norm_num)]
    simp [wrapErr]

/-- C4, counterexample: `MMKQtyServerBusy` with capacity `k = -1 < 1`
(and `mu != 0`) does not fail; it returns the number `0`. -/
theorem mmk_negative_limit_returns_number :
    MMKQtyServerBusy (1 / 2) (1 / 5) 1 (-1) 4 = .ok 0 ∧ (-1 : ℚ) < 1 := by
  constructor
  · rw [MMKQtyServerBusy, if_neg (by norm_num), if_neg (by norm_num), if_neg (by norm_num),
      if_neg (by norm_num), wrapErr_ok]
  · norm_num

/-- C4, amended: every M/M/1/k per-model function fails whenever `mu = 0`,
and whenever `mu != 0` and the capacity parameter `k = 0`, the `k = 0`
failure carrying a different message than the `mu = 0` failure; for other
`k < 1` (negative capacities) the functions do not necessarily fail. -/
theorem mmk_mu_and_limit_guards (lambda mu iteration limit : ℚ) (d : ℕ) :
    (mu = 0 →
      MMKQtyServerBusy lambda mu iteration limit d =
        .error ("M/M/1/k Quantity of Servers Busy error: " ++ muZeroMsg) ∧
      MMKInitialProbability lambda mu limit d =
        .error ("M/M/1/k Initial Probability error: " ++ muZeroMsg) ∧
      MMKNProbability lambda mu iteration limit d =
        .error ("M/M/1/k n Probability error: " ++ muZeroMsg) ∧
      MMKSClientEx lambda mu limit d =
        .error ("M/M/1/k Server Clients Expected error: " ++ muZeroMsg) ∧
      MMKQClientEx lambda mu limit d =
        .error ("M/M/1/k Queue Clients Expected error: " ++ muZeroMsg) ∧
      MMKQTimeEx lambda mu limit d =
        .error ("M/M/1/k Queue Time Expected error: " ++ muZeroMsg) ∧
      MMKSTimeEx lambda mu limit d =
        .error ("M/M/1/k Server Time Expected error: " ++ muZeroMsg)) ∧
    (mu ≠ 0 → limit = 0 →
      MMKQtyServerBusy lambda mu iteration limit d =
        .error ("M/M/1/k Quantity of Servers Busy error: " ++ limitZeroMsg) ∧
      MMKInitialProbability lambda mu limit d =
        .error ("M/M/1/k Initial Probability error: " ++ limitZeroMsg) ∧
      MMKNProbability lambda mu iteration limit d =
        .error ("M/M/1/k n Probability error: " ++ limitZeroMsg) ∧
      MMKSClientEx lambda mu limit d =
        .error ("M/M/1/k Server Clients Expected error: " ++ limitZeroMsg) ∧
      MMKQClientEx lambda mu limit d =
        .error ("M/M/1/k Queue Clients Expected error: " ++ limitZeroMsg) ∧
      MMKQTimeEx lambda mu limit d =
        .error ("M/M/1/k Queue Time Expected error: " ++ limitZeroMsg) ∧
      MMKSTimeEx lambda mu limit d =
        .error ("M/M/1/k Server Time Expected error: " ++ limitZeroMsg)) ∧
    muZeroMsg ≠ limitZeroMsg := by
  refine ⟨?_, ?_, by decide⟩
  · intro hmu
    subst hmu
    refine ⟨?_, ?_, ?_, ?_, ?_, ?_, ?_⟩ <;>
      rw [show (0 : ℚ) = 0 from rfl] <;>
      first
      | rw [MMKQtyServerBusy, if_pos rfl, wrapErr_error]
      | rw [MMKInitialProbability, if_pos rfl, wrapErr_error]
      | rw [MMKNProbability, if_pos rfl, wrapErr_error]
      | rw [MMKSClientEx, if_pos rfl, wrapErr_error]
      | rw [MMKQClientEx, if_pos rfl, wrapErr_error]
      | rw [MMKQTimeEx, if_pos rfl, wrapErr_error]
      | rw [MMKSTimeEx, if_pos rfl, wrapErr_error]
  · intro hmu hk
    subst hk
    refine ⟨?_, ?_, ?_, ?_, ?_, ?_, ?_⟩ <;>
      first
      | rw [MMKQtyServerBusy, if_neg hmu, if_pos rfl, wrapErr_error]
      | rw [MMKInitialProbability, if_neg hmu, if_pos rfl, wrapErr_error]
      | rw [MMKNProbability, if_neg hmu, if_pos rfl, wrapErr_error]
      | rw [MMKSClientEx, if_neg hmu, if_pos rfl, wrapErr_error]
      | rw [MMKQClientEx, if_neg hmu, if_pos rfl, wrapErr_error]
      | rw [MMKQTimeEx, if_neg hmu, if_pos rfl, wrapErr_error]
      | rw [MMKSTimeEx, if_neg hmu, if_pos rfl, wrapErr_error]

/-- Witness for C4 (amended): both failure kinds at concrete inputs. -/
theorem mmk_mu_and_limit_guards_witness :
    MMKQtyServerBusy 1 0 1 1 4 =
      .error ("M/M/1/k Quantity of Servers Busy error: " ++ muZeroMsg) ∧
    MMKQtyServerBusy 1 1 1 0 4 =
      .error ("M/M/1/k Quantity of Servers Busy error: " ++ limitZeroMsg) :=
  ⟨((mmk_mu_and_limit_guards 1 0 1 1 4).1 rfl).1,
   ((mmk_mu_and_limit_guards 1 1 1 0 4).2.1 (by norm_num) rfl).1⟩

/-- C10: for every non-integer model selector strictly between 0 and 5,
every dispatcher operation passes the range validation, matches no switch
case and returns the `{result: null, message: "Invalid queuing model selected."}`
envelope without raising an error. -/
theorem dispatcher_noninteger_model_null
    (model lambda mu serverSize iteration variation limit : ℚ) (d : ℕ)
    (h0 : 0 < model) (h5 : model < 5) (hni : ∀ m : ℤ, model ≠ (m : ℚ)) :
    QtyServerBusy model lambda mu serverSize iteration limit d =
      .ok ⟨none, "Invalid queuing model selected."⟩ ∧
    InitialProbability model lambda mu serverSize limit d =
      .ok ⟨none, "Invalid queuing model selected."⟩ ∧
    NProbability model lambda mu serverSize iteration limit d =
      .ok ⟨none, "Invalid queuing model selected."⟩ ∧
    QClientEx model lambda mu serverSize variation limit d =
      .ok ⟨none, "Invalid queuing model selected."⟩ ∧
    SClientEx model lambda mu serverSize variation limit d =
      .ok ⟨none, "Invalid queuing model selected."⟩ ∧
    QTimeEx model lambda mu serverSize variation limit d =
      .ok ⟨none, "Invalid queuing model selected."⟩ ∧
    STimeEx model lambda mu serverSize variation limit d =
      .ok ⟨none, "Invalid queuing model selected."⟩ ∧
    ModelName model = .ok ⟨none, "Invalid queuing model selected."⟩ := by
  have hg : ¬(model ≤ 0 ∨ 5 < model) := by
    push_neg
    exact ⟨h0, le_of_lt h5⟩
  have h1 : model ≠ 1 := by simpa using hni 1
  have h2 : model ≠ 2 := by simpa using hni 2
  have h3 : model ≠ 3 := by simpa using hni 3
  have h4 : model ≠ 4 := by simpa using hni 4
  have h5' : model ≠ 5 := by simpa using hni 5
  refine ⟨?_, ?_, ?_, ?_, ?_, ?_, ?_, ?_⟩
  · rw [QtyServerBusy, if_neg hg, if_neg h1, if_neg h2, if_neg h3, if_neg h4, if_neg h5',
      wrapErr_ok]
  · rw [InitialProbability, if_neg hg, if_neg h1, if_neg h2, if_neg h3, if_neg h4, if_neg h5',
      wrapErr_ok]
  · rw [NProbability, if_neg hg, if_neg h1, if_neg h2, if_neg h3, if_neg h4, if_neg h5',
      wrapErr_ok]
  · rw [QClientEx, if_neg hg, if_neg h1, if_neg h2, if_neg h3, if_neg h4, if_neg h5',
      wrapErr_ok]
  · rw [SClientEx, if_neg hg, if_neg h1, if_neg h2, if_neg h3, if_neg h4, if_neg h5',
      wrapErr_ok]
  · rw [QTimeEx, if_neg hg, if_neg h1, if_neg h2, if_neg h3, if_neg h4, if_neg h5',
      wrapErr_ok]
  · rw [STimeEx, if_neg hg, if_neg h1, if_neg h2, if_neg h3, if_neg h4, if_neg h5',
      wrapErr_ok]
  · rw [ModelName, if_neg hg, if_neg h1, if_neg h2, if_neg h3, if_neg h4, if_neg h5',
      wrapErr_ok]

/-- Witness for C10 at the in-range non-integer selector `model = 5/2`. -/
theorem dispatcher_noninteger_model_null_witness :
    QtyServerBusy (5 / 2) 0 1 1 1 1 4 = .ok ⟨none, "Invalid queuing model selected."⟩ ∧
    InitialProbability (5 / 2) 0 1 1 1 4 = .ok ⟨none, "Invalid queuing model selected."⟩ ∧
    NProbability (5 / 2) 0 1 1 1 1 4 = .ok ⟨none, "Invalid queuing model selected."⟩ ∧
    QClientEx (5 / 2) 0 1 1 0 1 4 = .ok ⟨none, "Invalid queuing model selected."⟩ ∧
    SClientEx (5 / 2) 0 1 1 0 1 4 = .ok ⟨none, "Invalid queuing model selected."⟩ ∧
    QTimeEx (5 / 2) 0 1 1 0 1 4 = .ok ⟨none, "Invalid queuing model selected."⟩ ∧
    STimeEx (5 / 2) 0 1 1 0 1 4 = .ok ⟨none, "Invalid queuing model selected."⟩ ∧
    ModelName (5 / 2) = .ok ⟨none, "Invalid queuing model selected."⟩ :=
  dispatcher_noninteger_model_null (5 / 2) 0 1 1 1 0 1 4 (by norm_num) (by norm_num)
    (fun m h => by
      have h2 : (5 : ℚ) = 2 * (m : ℚ) := by
        rw [← h]
        ring
      have h3 : (5 : ℤ) = 2 * m := by exact_mod_cast h2
      omega)

/-- C9, counterexample to the exclusivity part: the dispatcher
`QtyServerBusy` also returns a `null` result for the in-range non-integer
selector `7/2`, which is neither model 1 nor model 5. -/
theorem qty_server_busy_null_at_noninteger_selector :
    QtyServerBusy (7 / 2) 3 2 2 1 5 4 = .ok ⟨none, "Invalid queuing model selected."⟩ ∧
    (7 / 2 : ℚ) ≠ 1 ∧ (7 / 2 : ℚ) ≠ 5 := by
  refine ⟨?_, by norm_num, by norm_num⟩
  rw [QtyServerBusy, if_neg (by norm_num), if_neg (by norm_num), if_neg (by norm_num),
    if_neg (by norm_num), if_neg (by norm_num), if_neg (by norm_num), wrapErr_ok]

/-- C9, amended: for model selectors 1 (M/M/1) and 5 (M/G/1), the
dispatcher `QtyServerBusy` returns the envelope with a `null` result and a
message stating that the model does not quantify occupied servers, for
every choice of the remaining parameters; among the selectors that match a
model case (1 through 5), `null` occurs only in this inapplicable case —
but the default switch branch additionally returns `null` with an
invalid-model message for in-range selectors matching no case. -/
theorem qty_server_busy_null_cases (model lambda mu serverSize iteration limit : ℚ) (d : ℕ) :
    QtyServerBusy 1 lambda mu serverSize iteration limit d =
      .ok ⟨none, "The M/M/1 model does not quantify the occupied servers."⟩ ∧
    QtyServerBusy 5 lambda mu serverSize iteration limit d =
      .ok ⟨none, "The M/G/1 model does not quantify the occupied servers."⟩ ∧
    (∀ r : ModelResult,
      QtyServerBusy model lambda mu serverSize iteration limit d = .ok r →
      r.result = none →
      model = 1 ∨ model = 5 ∨ (model ≠ 2 ∧ model ≠ 3 ∧ model ≠ 4)) := by
  refine ⟨?_, ?_, ?_⟩
  · rw [QtyServerBusy, if_neg (by norm_num), if_pos rfl, wrapErr_ok]
  · rw [QtyServerBusy, if_neg (by norm_num), if_neg (by norm_num), if_neg (by norm_num),
      if_neg (by norm_num), if_neg (by norm_num), if_pos rfl, wrapErr_ok]
  · intro r hok hres
    by_cases hm1 : model = 1
    · exact Or.inl hm1
    by_cases hm5 : model = 5
    · exact Or.inr (Or.inl hm5)
    refine Or.inr (Or.inr ⟨?_, ?_, ?_⟩)
    · intro hm2
      subst hm2
      rw [QtyServerBusy, if_neg (by norm_num), if_neg (by norm_num), if_pos rfl] at hok
      cases hMS : MMSQtyServerBusy lambda mu serverSize iteration d with
      | error e =>
        rw [hMS, wrapErr_error] at hok
        exact Except.noConfusion hok
      | ok v =>
        rw [hMS, wrapErr_ok] at hok
        have := Except.ok.inj hok
        rw [← this] at hres
        exact Option.noConfusion hres
    · intro hm3
      subst hm3
      rw [QtyServerBusy, if_neg (by norm_num), if_neg (by norm_num), if_neg (by norm_num),
        if_pos rfl] at hok
      cases hMK : MMKQtyServerBusy lambda mu iteration limit d with
      | error e =>
        rw [hMK, wrapErr_error] at hok
        exact Except.noConfusion hok
      | ok v =>
        rw [hMK, wrapErr_ok] at hok
        have := Except.ok.inj hok
        rw [← this] at hres
        exact Option.noConfusion hres
    · intro hm4
      subst hm4
      rw [QtyServerBusy, if_neg (by norm_num), if_neg (by norm_num), if_neg (by norm_num),
        if_neg (by norm_num), if_pos rfl] at hok
      cases hMSK : MMSKQtyServerBusy mu serverSize iteration limit ((d : ℚ)) 4 with
      | error e =>
        rw [hMSK, wrapErr_error] at hok
        exact Except.noConfusion hok
      | ok v =>
        rw [hMSK, wrapErr_ok] at hok
        have := Except.ok.inj hok
        rw [← this] at hres
        exact Option.noConfusion hres

/-- Witness for C9 (amended), applying the theorem at selector 1. -/
theorem qty_server_busy_null_cases_witness :
    QtyServerBusy 1 0 1 1 1 1 4 =
      .ok ⟨none, "The M/M/1 model does not quantify the occupied servers."⟩ ∧
    ((1 : ℚ) = 1 ∨ (1 : ℚ) = 5 ∨ ((1 : ℚ) ≠ 2 ∧ (1 : ℚ) ≠ 3 ∧ (1 : ℚ) ≠ 4)) := by
  have h := qty_server_busy_null_cases 1 0 1 1 1 1 4
  exact ⟨h.1, h.2.2 ⟨none, "The M/M/1 model does not quantify the occupied servers."⟩ h.1 rfl⟩

/-- C1: evaluating the code at the failing input.  The dispatcher case for
model 4 calls `MMSKQtyServerBusy(mu, s, n, k, decimals)` against the
six-parameter signature `(lambda, mu, serverSize, iteration, limit, decimals)`,
dropping `lambda` and shifting every argument one slot.  At
`lambda = 1/2`, `mu = 1/5`, `serverSize = 2`, `iteration = 1`, `limit = 2`,
`decimals = 4` the shifted call lands in the always-zero blocked branch
and the dispatcher yields `0`, while the per-model function called with
the caller's parameters in their documented roles yields `5`. -/
theorem dispatcher_model4_parameter_shift :
    QtyServerBusy 4 (1 / 2) (1 / 5) 2 1 2 4 =
      .ok ⟨some 0, "Successful calculation for the M/M/s/k model."⟩ ∧
    MMSKQtyServerBusy (1 / 2) (1 / 5) 2 1 2 4 = .ok 5 ∧ (0 : ℚ) ≠ 5 := by
  have hl1 : MMSKNLambda (1 / 5) 2 4 15 = 1 / 5 := by
    rw [MMSKNLambda, if_neg (by norm_num),
      roundDec_eq_self (1 / 5) 15 200000000000000 (by norm_num)]
  have hshift : MMSKQtyServerBusy (1 / 5) 2 1 2 4 4 = .ok 0 := by
    rw [MMSKQtyServerBusy]
    simp only [hl1]
    rw [if_neg (by norm_num), if_neg (by norm_num), if_neg (by norm_num), if_neg (by norm_num),
      if_neg (by norm_num), if_neg (by norm_num), if_pos (by norm_num)]
    rw [show (2 - 1 : ℚ) = 1 by norm_num]
    simp only [ratPow_one, ratPow_two, ratFactorial_one]
    rw [show ((1 : ℚ) / 5 / 2 / 1 * ((1 : ℚ) / 5 / (2 * 1)) -
      ((1 : ℚ) / 5 / 2) ^ 2 / (1 * 1) : ℚ) = 0 by norm_num]
    rw [roundDec_zero, wrapErr_ok]
  refine ⟨?_, ?_, by norm_num⟩
  · rw [QtyServerBusy, if_neg (by norm_num), if_neg (by norm_num), if_neg (by norm_num),
      if_neg (by norm_num), if_pos rfl]
    simp only [Nat.cast_ofNat]
    rw [hshift, wrapErr_ok]
  · have hl2 : MMSKNLambda (1 / 2) 1 2 15 = 1 / 2 := by
      rw [MMSKNLambda, if_neg (by norm_num),
        roundDec_eq_self (1 / 2) 15 500000000000000 (by norm_num)]
    rw [MMSKQtyServerBusy]
    simp only [hl2]
    rw [if_neg (by norm_num), if_neg (by norm_num), if_neg (by norm_num), if_neg (by norm_num),
      if_neg (by norm_num), if_pos (by norm_num)]
    rw [ratPow_one, ratFactorial_one]
    rw [show ((1 : ℚ) / (1 / 5) / 1 : ℚ) = 5 by norm_num]
    rw [roundDec_eq_self 5 4 50000 (by norm_num), wrapErr_ok]

/-- Shape of `MMSInitialProbability` once its guards pass. -/
theorem MMSInitialProbability_ok (lambda mu serverSize : ℚ) (d : ℕ)
    (hmu : mu ≠ 0) (hs : 0 < serverSize) :
    MMSInitialProbability lambda mu serverSize d =
      .ok (roundDec (1 / (Summation 0 (serverSize - 1)
          (fun n => ratPow (lambda / mu) n / ratFactorial n) 15 +
        ratPow (lambda / mu) serverSize / ratFactorial serverSize *
          (1 / (1 - roundDec (lambda / (mu * serverSize)) 15)))) d) := by
  rw [MMSInitialProbability, if_neg hmu, if_neg (not_le.mpr hs),
    Rho_ok lambda mu serverSize 15 hmu hs]
  rfl

/-- C5: for the M/M/s model, `NProbability(n)` equals
`((lambda/mu)^s / n!) * P0` when `n <= s` (exponent `s`, not `n`) and
`((lambda/mu) / (s! * s^(n-s))) * P0` when `n > s` (first factor to the
first power), where `P0` is the M/M/s initial probability — exactly the
asymmetric source formulas; at a concrete input the result differs from
the symmetric textbook formulas. -/
theorem mms_nprobability_asymmetric (lambda mu serverSize iteration : ℚ) (d : ℕ)
    (hmu : 0 < mu) (hs : 0 < serverSize) (hn : 0 ≤ iteration) :
    (∃ po, MMSInitialProbability lambda mu serverSize 15 = .ok po ∧
      MMSNProbability lambda mu serverSize iteration d =
        .ok (if iteration ≤ serverSize then
              roundDec (ratPow (lambda / mu) serverSize / ratFactorial iteration * po) d
            else
              roundDec (lambda / mu /
                (ratFactorial serverSize * ratPow serverSize (iteration - serverSize)) * po) d)) ∧
    MMSNProbability 1 2 2 1 4 = .ok (3 / 20) ∧
    MMSNProbabilityTextbook 1 2 2 1 4 = .ok (3 / 10) ∧ (3 / 20 : ℚ) ≠ 3 / 10 := by
  have hcnt : summationCount 0 (1 : ℚ) = 2 := by
    rw [summationCount, if_neg (by norm_num)]
    norm_num
    rfl
  have hsum : Summation 0 (2 - 1 : ℚ) (fun n => ratPow (1 / 2) n / ratFactorial n) 15 = 3 / 2 := by
    rw [show (2 - 1 : ℚ) = 1 by norm_num, Summation, hcnt]
    rw [Finset.sum_range_succ, Finset.sum_range_one]
    norm_num [ratPow_zero, ratPow_one, ratFactorial_zero, ratFactorial_one]
    rw [roundDec_eq_self (3 / 2) 15 1500000000000000 (by norm_num)]
  have hpo2 : MMSInitialProbability 1 2 2 15 = .ok (3 / 5) := by
    rw [MMSInitialProbability_ok 1 2 2 15 (by norm_num) (by norm_num)]
    rw [hsum]
    rw [roundDec_eq_self (1 / (2 * 2)) 15 250000000000000 (by norm_num)]
    rw [ratPow_two, ratFactorial_two]
    rw [show (1 / ((3 : ℚ) / 2 + (1 / 2) ^ 2 / 2 * (1 / (1 - 1 / (2 * 2)))) : ℚ) = 3 / 5 by
      norm_num]
    rw [roundDec_eq_self (3 / 5) 15 600000000000000 (by norm_num)]
  refine ⟨?_, ?_, ?_, by norm_num⟩
  · have hpo := MMSInitialProbability_ok lambda mu serverSize 15 (ne_of_gt hmu) hs
    refine ⟨_, hpo, ?_⟩
    rw [MMSNProbability, if_neg (not_le.mpr hmu), if_neg (not_le.mpr hs),
      if_neg (not_lt.mpr hn)]
    simp only [hpo]
    by_cases hcase : iteration ≤ serverSize
    · rw [if_pos hcase, if_pos hcase, wrapErr_ok]
    · rw [if_neg hcase, if_neg hcase, wrapErr_ok]
  · rw [MMSNProbability, if_neg (by norm_num), if_neg (by norm_num), if_neg (by norm_num)]
    simp only [hpo2]
    rw [if_pos (show (1 : ℚ) ≤ 2 by norm_num)]
    rw [ratPow_two, ratFactorial_one]
    rw [show ((1 / 2 : ℚ) ^ 2 / 1 * (3 / 5) : ℚ) = 3 / 20 by norm_num]
    rw [roundDec_eq_self (3 / 20) 4 1500 (by norm_num), wrapErr_ok]
  · rw [MMSNProbabilityTextbook]
    simp only [hpo2]
    rw [if_pos (show (1 : ℚ) ≤ 2 by norm_num)]
    rw [ratPow_one, ratFactorial_one]
    rw [show ((1 / 2 : ℚ) / 1 * (3 / 5) : ℚ) = 3 / 10 by norm_num]
    rw [roundDec_eq_self (3 / 10) 4 3000 (by norm_num)]

/-- Witness for C5 at `lambda = 1`, `mu = 2`, `s = 2`, `n = 3`, `d = 4`. -/
theorem mms_nprobability_asymmetric_witness :
    (∃ po, MMSInitialProbability 1 2 2 15 = .ok po ∧
      MMSNProbability 1 2 2 3 4 =
        .ok (if (3 : ℚ) ≤ 2 then
              roundDec (ratPow (1 / 2) 2 / ratFactorial 3 * po) 4
            else
              roundDec (1 / 2 / (ratFactorial 2 * ratPow 2 (3 - 2)) * po) 4)) ∧
    MMSNProbability 1 2 2 1 4 = .ok (3 / 20) ∧
    MMSNProbabilityTextbook 1 2 2 1 4 = .ok (3 / 10) ∧ (3 / 20 : ℚ) ≠ 3 / 10 :=
  mms_nprobability_asymmetric 1 2 2 3 4 (by norm_num) (by norm_num) (by norm_num)

/-- C7: for the M/M/1 model, whenever `lambda >= 0`, `mu > 0`,
`rho = lambda/mu < 1` (and `rho` is exactly representable at the internal
15-decimal precision), `SSSClientEx - SSQClientEx` is within one unit in
the `d`-th decimal place of `rho`, and `SSSTimeEx - SSQTimeEx` is within
one unit in the `d`-th decimal place of `1/mu`. -/
theorem ss_conservation (lambda mu : ℚ) (d : ℕ)
    (hl : 0 ≤ lambda) (hmu : 0 < mu)
    (hrep : roundDec (lambda / mu) 15 = lambda / mu) (hrho : lambda / mu < 1) :
    ∃ ls lq ws wq,
      SSSClientEx lambda mu d = .ok ls ∧ SSQClientEx lambda mu d = .ok lq ∧
      SSSTimeEx lambda mu d = .ok ws ∧ SSQTimeEx lambda mu d = .ok wq ∧
      |ls - lq - lambda / mu| ≤ 1 / 10 ^ d ∧ |ws - wq - 1 / mu| ≤ 1 / 10 ^ d := by
  have hmu' : mu ≠ 0 := ne_of_gt hmu
  have hR : Rho lambda mu 1 15 = .ok (lambda / mu) := by
    rw [Rho_ok lambda mu 1 15 hmu' one_pos, mul_one, hrep]
  have hone : (1 : ℚ) - lambda / mu ≠ 0 := by
    have : lambda / mu < 1 := hrho
    intro hzero
    have : (1 : ℚ) = lambda / mu := by linarith
    linarith
  have hlam_lt : lambda < mu := (div_lt_one hmu).mp hrho
  have hml : mu - lambda ≠ 0 := ne_of_gt (by linarith)
  have hLs : SSSClientEx lambda mu d = .ok (roundDec (lambda / mu / (1 - lambda / mu)) d) := by
    rw [SSSClientEx, if_neg hmu']
    simp only [hR]
    rw [wrapErr_ok]
  have hLq : SSQClientEx lambda mu d = .ok (roundDec ((lambda / mu) ^ 2 / (1 - lambda / mu)) d) := by
    rw [SSQClientEx, if_neg hmu']
    simp only [hR]
    rw [wrapErr_ok]
  have hWs : SSSTimeEx lambda mu d = .ok (roundDec (1 / (mu - lambda)) d) := by
    rw [SSSTimeEx, if_neg hmu', wrapErr_ok]
  have hWq : SSQTimeEx lambda mu d = .ok (roundDec (lambda / mu / (mu * (1 - lambda / mu))) d) := by
    rw [SSQTimeEx, if_neg hmu']
    simp only [hR]
    rw [wrapErr_ok]
  have h10 : (10 : ℚ) ^ d ≠ 0 := by positivity
  refine ⟨_, _, _, _, hLs, hLq, hWs, hWq, ?_, ?_⟩
  · have e1 := abs_roundDec_sub (lambda / mu / (1 - lambda / mu)) d
    have e2 := abs_roundDec_sub ((lambda / mu) ^ 2 / (1 - lambda / mu)) d
    have hid : lambda / mu / (1 - lambda / mu) - (lambda / mu) ^ 2 / (1 - lambda / mu) =
        lambda / mu := by
      field_simp
      ring
    have hexp : roundDec (lambda / mu / (1 - lambda / mu)) d -
        roundDec ((lambda / mu) ^ 2 / (1 - lambda / mu)) d - lambda / mu =
        (roundDec (lambda / mu / (1 - lambda / mu)) d - lambda / mu / (1 - lambda / mu)) -
        (roundDec ((lambda / mu) ^ 2 / (1 - lambda / mu)) d -
          (lambda / mu) ^ 2 / (1 - lambda / mu)) := by
      linarith [hid]
    rw [hexp]
    calc |_ - _| ≤ _ + _ := abs_sub _ _
      _ ≤ 1 / (2 * 10 ^ d) + 1 / (2 * 10 ^ d) := add_le_add e1 e2
      _ = 1 / 10 ^ d := by
        field_simp
        ring
  · have e1 := abs_roundDec_sub (1 / (mu - lambda)) d
    have e2 := abs_roundDec_sub (lambda / mu / (mu * (1 - lambda / mu))) d
    have hid : 1 / (mu - lambda) - lambda / mu / (mu * (1 - lambda / mu)) = 1 / mu := by
      have hmul : mu * (1 - lambda / mu) = mu - lambda := by
        field_simp
      rw [hmul]
      field_simp
      ring
    have hexp : roundDec (1 / (mu - lambda)) d -
        roundDec (lambda / mu / (mu * (1 - lambda / mu))) d - 1 / mu =
        (roundDec (1 / (mu - lambda)) d - 1 / (mu - lambda)) -
        (roundDec (lambda / mu / (mu * (1 - lambda / mu))) d -
          lambda / mu / (mu * (1 - lambda / mu))) := by
      linarith [hid]
    rw [hexp]
    calc |_ - _| ≤ _ + _ := abs_sub _ _
      _ ≤ 1 / (2 * 10 ^ d) + 1 / (2 * 10 ^ d) := add_le_add e1 e2
      _ = 1 / 10 ^ d := by
        field_simp
        ring

/-- Witness for C7 at `lambda = 1`, `mu = 2`, `d = 4`. -/
theorem ss_conservation_witness :
    ∃ ls lq ws wq,
      SSSClientEx 1 2 4 = .ok ls ∧ SSQClientEx 1 2 4 = .ok lq ∧
      SSSTimeEx 1 2 4 = .ok ws ∧ SSQTimeEx 1 2 4 = .ok wq ∧
      |ls - lq - 1 / 2| ≤ 1 / 10 ^ 4 ∧ |ws - wq - 1 / 2| ≤ 1 / 10 ^ 4 := by
  have h := ss_conservation 1 2 4 (by norm_num) (by norm_num)
    (roundDec_eq_self (1 / 2) 15 500000000000000 (by norm_num)) (by norm_num)
  simpa using h

/-- C6: for `lambda >= 0`, `mu > 0`, capacity `k >= 1`, `rho = lambda/mu`
not 1 and exactly representable at the internal 15-decimal precision, the
M/M/1/k state probabilities normalize: `MMKInitialProbability` times the
sum over `n = 0..k` of `rho^n` is within rounding tolerance of 1. -/
theorem mmk_initial_probability_normalizes (lambda mu : ℚ) (k d : ℕ)
    (hl : 0 ≤ lambda) (hmu : 0 < mu) (hk : 1 ≤ k)
    (hrep : roundDec (lambda / mu) 15 = lambda / mu) (hrho : lambda / mu ≠ 1) :
    ∃ p, MMKInitialProbability lambda mu (k : ℚ) d = .ok p ∧
      |p * (Finset.range (k + 1)).sum (fun n => (lambda / mu) ^ n) - 1| ≤
        (Finset.range (k + 1)).sum (fun n => (lambda / mu) ^ n) / (2 * 10 ^ d) := by
  have hmu' : mu ≠ 0 := ne_of_gt hmu
  have hkQ : (k : ℚ) ≠ 0 := Nat.cast_ne_zero.mpr (by omega)
  have hR : Rho lambda mu 1 15 = .ok (lambda / mu) := by
    rw [Rho_ok lambda mu 1 15 hmu' one_pos, mul_one, hrep]
  have hpowcast : ratPow (lambda / mu) ((k : ℚ) + 1) = (lambda / mu) ^ (k + 1) := by
    rw [show ((k : ℚ) + 1) = (((k + 1 : ℕ)) : ℚ) by push_cast; ring, ratPow_natCast]
  have hip : MMKInitialProbability lambda mu (k : ℚ) d =
      .ok (roundDec ((1 - lambda / mu) / (1 - (lambda / mu) ^ (k + 1))) d) := by
    rw [MMKInitialProbability, if_neg hmu', if_neg hkQ]
    simp only [hR]
    rw [if_neg hrho, hpowcast, wrapErr_ok]
  refine ⟨_, hip, ?_⟩
  have hge : (0 : ℚ) ≤ lambda / mu := div_nonneg hl hmu.le
  have hpne : (lambda / mu) ^ (k + 1) ≠ 1 := by
    rcases lt_or_gt_of_ne hrho with h | h
    · exact ne_of_lt (pow_lt_one hge h (Nat.succ_ne_zero k))
    · exact ne_of_gt (one_lt_pow h (Nat.succ_ne_zero k))
  have h1p : (1 : ℚ) - (lambda / mu) ^ (k + 1) ≠ 0 := sub_ne_zero.mpr (Ne.symm hpne)
  have hgm := geom_sum_mul (lambda / mu) (k + 1)
  have h2 : (1 - lambda / mu) * (Finset.range (k + 1)).sum (fun n => (lambda / mu) ^ n) =
      1 - (lambda / mu) ^ (k + 1) := by
    have hneg : (1 - lambda / mu) * (Finset.range (k + 1)).sum (fun n => (lambda / mu) ^ n) =
        -((Finset.range (k + 1)).sum (fun n => (lambda / mu) ^ n) * (lambda / mu - 1)) := by
      ring
    rw [hneg, hgm]
    ring
  have hXS : (1 - lambda / mu) / (1 - (lambda / mu) ^ (k + 1)) *
      (Finset.range (k + 1)).sum (fun n => (lambda / mu) ^ n) = 1 := by
    rw [div_mul_eq_mul_div, h2, div_self h1p]
  have hS0 : (0 : ℚ) ≤ (Finset.range (k + 1)).sum (fun n => (lambda / mu) ^ n) :=
    Finset.sum_nonneg (fun i _ => pow_nonneg hge i)
  have hr := abs_roundDec_sub ((1 - lambda / mu) / (1 - (lambda / mu) ^ (k + 1))) d
  have hkey : roundDec ((1 - lambda / mu) / (1 - (lambda / mu) ^ (k + 1))) d *
      (Finset.range (k + 1)).sum (fun n => (lambda / mu) ^ n) - 1 =
      (roundDec ((1 - lambda / mu) / (1 - (lambda / mu) ^ (k + 1))) d -
        (1 - lambda / mu) / (1 - (lambda / mu) ^ (k + 1))) *
      (Finset.range (k + 1)).sum (fun n => (lambda / mu) ^ n) := by
    rw [sub_mul, hXS]
  rw [hkey, abs_mul, abs_of_nonneg hS0]
  calc |roundDec ((1 - lambda / mu) / (1 - (lambda / mu) ^ (k + 1))) d -
        (1 - lambda / mu) / (1 - (lambda / mu) ^ (k + 1))| *
        (Finset.range (k + 1)).sum (fun n => (lambda / mu) ^ n)
      ≤ 1 / (2 * 10 ^ d) * (Finset.range (k + 1)).sum (fun n => (lambda / mu) ^ n) :=
        mul_le_mul_of_nonneg_right hr hS0
    _ = (Finset.range (k + 1)).sum (fun n => (lambda / mu) ^ n) / (2 * 10 ^ d) := by
        ring

/-- Witness for C6 at `lambda = 1`, `mu = 2`, `k = 2`, `d = 4`. -/
theorem mmk_initial_probability_normalizes_witness :
    ∃ p, MMKInitialProbability 1 2 ((2 : ℕ) : ℚ) 4 = .ok p ∧
      |p * (Finset.range (2 + 1)).sum (fun n => ((1 : ℚ) / 2) ^ n) - 1| ≤
        (Finset.range (2 + 1)).sum (fun n => ((1 : ℚ) / 2) ^ n) / (2 * 10 ^ 4) :=
  mmk_initial_probability_normalizes 1 2 2 4 (by norm_num) (by norm_num) (by norm_num)
    (roundDec_eq_self (1 / 2) 15 500000000000000 (by norm_num)) (by norm_num)

end QuantaQueue
